import Mathlib

/-
Verification development for the Task Tiles backend (src/backend/main.py,
src/backend/models.py).  The data model and every operation below are shallow
embeddings of the Python source: SQLAlchemy rows become records, the session
becomes an explicit AppState value, `db.query(...).filter(...).first()` becomes
List.find?, bulk `.update(...)` becomes List.map, `db.delete` becomes
List.filter, and an HTTPException becomes an Except.error (no commit happened,
so the state is unchanged).  Records carry the columns that the verified
properties mention; columns no property touches (description, checklist,
timestamps) are omitted.  difflib.get_close_matches (an external library call)
is passed in as an explicit function argument of the chatbot operations.
-/

structure BoardRec where
  id : Nat
  title : String
  ownerId : Nat
deriving DecidableEq

structure MemberRec where
  boardId : Nat
  userId : Nat
deriving DecidableEq

structure TaskListRec where
  id : Nat
  boardId : Nat
  title : String
  position : Int
deriving DecidableEq

inductive Priority
  | low
  | medium
  | high
deriving DecidableEq

structure CardRec where
  id : Nat
  listId : Nat
  title : String
  position : Int
  priority : Priority
  createdBy : Nat
deriving DecidableEq

structure ContribRec where
  cardId : Nat
  userId : Nat
deriving DecidableEq

structure AppState where
  boards : List BoardRec
  members : List MemberRec
  lists : List TaskListRec
  cards : List CardRec
  contribs : List ContribRec
deriving DecidableEq

/-- Number of cards whose list_id is the given list: the source
`db.query(CardModel).filter(CardModel.list_id == list_id).count()` and
`len(task_list.cards)`. -/
def countListCards (s : AppState) (listId : Nat) : Nat :=
  (s.cards.filter (fun c => c.listId == listId)).length

/-- Number of lists of a board: `db.query(TaskListModel).filter(...).count()`
and `len(board.lists)`. -/
def countBoardLists (s : AppState) (boardId : Nat) : Nat :=
  (s.lists.filter (fun l => l.boardId == boardId)).length

/-- The stored positions of the cards of one list, in row order. -/
def listPositions (s : AppState) (listId : Nat) : List Int :=
  (s.cards.filter (fun c => c.listId == listId)).map (fun c => c.position)

/-- The stored positions of the lists of one board, in row order. -/
def boardListPositions (s : AppState) (boardId : Nat) : List Int :=
  (s.lists.filter (fun l => l.boardId == boardId)).map (fun l => l.position)

/-- The dense 0..N-1 invariant of the spec: the positions are a permutation of
0,...,N-1 for the size N of the collection. -/
def denseOk (ps : List Int) : Bool :=
  decide (ps.Perm ((List.range ps.length).map Int.ofNat))

/-- Python `Priority(value)` with the `except ValueError: MEDIUM` fallback of the
source (create_card / create_card_function). -/
def priority_of_string (p : String) : Priority :=
  if p == "low" then Priority.low
  else if p == "medium" then Priority.medium
  else if p == "high" then Priority.high
  else Priority.medium

/-- The default `priority_enum = Priority.MEDIUM; if card_data.priority: ...` of the
create_card endpoint. -/
def endpoint_priority : Option String → Priority
  | none => Priority.medium
  | some p => priority_of_string p

/-- Python `Priority(priority.lower())` of create_card_function, on lower-cased
character content. -/
def priority_of_chars (p : List Char) : Priority :=
  if p == "low".data then Priority.low
  else if p == "medium".data then Priority.medium
  else if p == "high".data then Priority.high
  else Priority.medium

/-- Python str.lower for the ASCII titles the system compares (A-Z mapped to
a-z); String.toLower itself does not reduce in the kernel, so the embedding
lower-cases explicit character lists. -/
def lowerChar (c : Char) : Char :=
  if 65 ≤ c.toNat ∧ c.toNat ≤ 90 then Char.ofNat (c.toNat + 32) else c

/-- The lower-cased character content of a string. -/
def lowerStr (t : String) : List Char := t.data.map lowerChar

/-- charsStartsWith n h: the char list n is a prefix of h. -/
def charsStartsWith : List Char → List Char → Bool
  | [], _ => true
  | _ :: _, [] => false
  | a :: as, b :: bs => a == b && charsStartsWith as bs

/-- charsContain n h: the char list n occurs contiguously inside h. -/
def charsContain (needle : List Char) : List Char → Bool
  | [] => needle.isEmpty
  | b :: bs => charsStartsWith needle (b :: bs) || charsContain needle bs

/-- SQL `CardModel.title.ilike` with a wildcard-wrapped query: case-insensitive
substring match of the
query against the title (for queries without LIKE metacharacters). -/
def ilike_contains (title q : String) : Bool :=
  charsContain (lowerStr q) (lowerStr title)

/-- has_board_access from main.py: owner of the board or a BoardMember row. -/
def has_board_access (s : AppState) (userId boardId : Nat) : Bool :=
  match s.boards.find? (fun b => b.id == boardId) with
  | none => false
  | some b =>
      b.ownerId == userId ||
        (s.members.find? (fun m => m.boardId == boardId && m.userId == userId)).isSome

/-- The duplicate-removal loop of get_user_boards (keeps first occurrences). -/
def dedupBoards : List BoardRec → List Nat → List BoardRec
  | [], _ => []
  | b :: bs, seen =>
      if seen.contains b.id then dedupBoards bs seen
      else b :: dedupBoards bs (b.id :: seen)

/-- get_user_boards from main.py: owned boards then member boards, deduplicated
by id. -/
def get_user_boards (s : AppState) (userId : Nat) : List BoardRec :=
  let owned := s.boards.filter (fun b => b.ownerId == userId)
  let memberBoards :=
    (s.members.filter (fun m => m.userId == userId)).filterMap
      (fun m => s.boards.find? (fun b => b.id == m.boardId))
  dedupBoards (owned ++ memberBoards) []

/-- Replace the position of a card (a row UPDATE of the position column). -/
def setPos (c : CardRec) (p : Int) : CardRec :=
  CardRec.mk c.id c.listId c.title p c.priority c.createdBy

/-- Replace the list_id and position of a card (the final card update of a move). -/
def setListPos (c : CardRec) (lid : Nat) (p : Int) : CardRec :=
  CardRec.mk c.id lid c.title p c.priority c.createdBy

/-- The errors the endpoints signal through HTTPException.  An error response
means no commit happened: the datastore is unchanged. -/
inductive ApiError
  | cardNotFound
  | listNotFound
  | targetListNotFound
  | boardNotFound
  | crossBoardMove
  | internalError
deriving DecidableEq

deriving instance DecidableEq for Except

/-- POST /api/lists (create_list): position = current count of the board
lists, then the new row is inserted. -/
def create_list (s : AppState) (userId newListId boardId : Nat) (title : String) :
    Except ApiError AppState :=
  if has_board_access s userId boardId then
    let maxPosition : Int := (countBoardLists s boardId : Int)
    Except.ok (AppState.mk s.boards s.members
      (s.lists ++ [TaskListRec.mk newListId boardId title maxPosition])
      s.cards s.contribs)
  else Except.error ApiError.boardNotFound

/-- POST /api/cards (create_card): position = current count of the list
cards; the creator is added as the first contributor. -/
def create_card (s : AppState) (userId newCardId listId : Nat) (title : String)
    (priority : Option String) : Except ApiError AppState :=
  match s.lists.find? (fun l => l.id == listId) with
  | none => Except.error ApiError.listNotFound
  | some taskList =>
      if has_board_access s userId taskList.boardId then
        let maxPosition : Int := (countListCards s listId : Int)
        Except.ok (AppState.mk s.boards s.members s.lists
          (s.cards ++ [CardRec.mk newCardId listId title maxPosition
            (endpoint_priority priority) userId])
          (s.contribs ++ [ContribRec.mk newCardId userId]))
      else Except.error ApiError.boardNotFound

/-- Cross-list move, source side: "cards in the old list after old_position
move up" — UPDATE position-1 on rows with list_id = old and position > old. -/
def shiftSrc (oldListId : Nat) (oldPosition : Int) (c : CardRec) : CardRec :=
  if c.listId = oldListId ∧ oldPosition < c.position then setPos c (c.position - 1) else c

/-- Cross-list move, destination side: "cards in the new list from new_position
on move down to make room" — UPDATE position+1 on rows with list_id = new and
position >= new_position. -/
def shiftDst (newListId : Nat) (newPosition : Int) (c : CardRec) : CardRec :=
  if c.listId = newListId ∧ newPosition ≤ c.position then setPos c (c.position + 1) else c

/-- The final "card.list_id = ...; card.position = ..." row update. -/
def updCard (cardId newListId : Nat) (newPosition : Int) (c : CardRec) : CardRec :=
  if c.id == cardId then setListPos c newListId newPosition else c

/-- The four bulk position UPDATEs of move_card / move_card_function (both
sources contain this identical block). -/
def shift_for_move (cards : List CardRec) (oldListId : Nat) (oldPosition : Int)
    (newListId : Nat) (newPosition : Int) : List CardRec :=
  if oldListId ≠ newListId then
    (cards.map (shiftSrc oldListId oldPosition)).map (shiftDst newListId newPosition)
  else if oldPosition < newPosition then
    cards.map (fun c =>
      if c.listId = oldListId ∧ oldPosition < c.position ∧ c.position ≤ newPosition then
        setPos c (c.position - 1) else c)
  else if newPosition < oldPosition then
    cards.map (fun c =>
      if c.listId = oldListId ∧ newPosition ≤ c.position ∧ c.position < oldPosition then
        setPos c (c.position + 1) else c)
  else cards

/-- The "Add user as contributor if not already" blocks of the source. -/
def add_contributor (contribs : List ContribRec) (cardId userId : Nat) :
    List ContribRec :=
  if (contribs.find? (fun k => k.cardId == cardId && k.userId == userId)).isSome
  then contribs
  else contribs ++ [ContribRec.mk cardId userId]

/-- The shift-then-set-then-contributor body shared verbatim by the move_card
endpoint and move_card_function. -/
def move_card_apply (s : AppState) (userId : Nat) (card : CardRec)
    (newListId : Nat) (newPosition : Int) : AppState :=
  let cards1 := shift_for_move s.cards card.listId card.position newListId newPosition
  let cards2 := cards1.map (updCard card.id newListId newPosition)
  AppState.mk s.boards s.members s.lists cards2
    (add_contributor s.contribs card.id userId)

/-- PUT /api/cards/{card_id}/move (move_card): lookups and the cross-board
guard, then the shift-and-set body.  The requested new_position is stored as
given — the endpoint never clamps it. -/
def move_card (s : AppState) (userId cardId newListId : Nat) (newPosition : Int) :
    Except ApiError AppState :=
  match s.cards.find? (fun c => c.id == cardId) with
  | none => Except.error ApiError.cardNotFound
  | some card =>
      match s.lists.find? (fun l => l.id == card.listId) with
      | none => Except.error ApiError.internalError
      | some sourceList =>
          if has_board_access s userId sourceList.boardId then
            match s.lists.find? (fun l => l.id == newListId) with
            | none => Except.error ApiError.targetListNotFound
            | some targetList =>
                if sourceList.boardId ≠ targetList.boardId then
                  Except.error ApiError.crossBoardMove
                else
                  Except.ok (move_card_apply s userId card newListId newPosition)
          else Except.error ApiError.boardNotFound

/-- DELETE /api/cards/{card_id} (delete_card): the row is deleted (contributors
cascade) and NOTHING else happens — no sibling position is shifted. -/
def delete_card (s : AppState) (userId cardId : Nat) : Except ApiError AppState :=
  match s.cards.find? (fun c => c.id == cardId) with
  | none => Except.error ApiError.cardNotFound
  | some card =>
      match s.lists.find? (fun l => l.id == card.listId) with
      | none => Except.error ApiError.internalError
      | some taskList =>
          if has_board_access s userId taskList.boardId then
            Except.ok (AppState.mk s.boards s.members s.lists
              (s.cards.filter (fun c => !(c.id == cardId)))
              (s.contribs.filter (fun k => !(k.cardId == cardId))))
          else Except.error ApiError.boardNotFound

/-- DELETE /api/lists/{list_id} (delete_list): the list row is deleted, its
cards cascade away (and their contributor rows with them), and the surviving
lists keep their stored positions — the endpoint performs no compaction. -/
def delete_list (s : AppState) (userId listId : Nat) : Except ApiError AppState :=
  match s.lists.find? (fun l => l.id == listId) with
  | none => Except.error ApiError.listNotFound
  | some taskList =>
      if has_board_access s userId taskList.boardId then
        let removedCardIds := (s.cards.filter (fun c => c.listId == listId)).map (fun c => c.id)
        Except.ok (AppState.mk s.boards s.members
          (s.lists.filter (fun l => !(l.id == listId)))
          (s.cards.filter (fun c => !(c.listId == listId)))
          (s.contribs.filter (fun k => !(removedCardIds.contains k.cardId))))
      else Except.error ApiError.boardNotFound

/-
The chatbot layer.  Each *_function below embeds the corresponding async
function of main.py.  The difflib.get_close_matches(name, titles, n=1,
cutoff=0.6) call is an external library call and is passed in as the `f`
argument: `f name titles = some t` models a closest match with similarity
at least 0.6, `none` models every candidate falling below the threshold.
The returned dict is modelled by ChatResult; display-string formatting such
such as the parenthesised board name is flattened to the underlying title.
-/

inductive ChatStatus
  | success
  | error
  | clarification
  | clarificationNeeded
deriving DecidableEq

structure ChatResult where
  status : ChatStatus
  suggestedName : Option String
  availableNames : List String
  affectedId : Option Nat
deriving DecidableEq

/-- One entry of the target_lists working array of create_card_function /
move_card_function: a list, its board, and the is_current_board flag. -/
structure ListInfo where
  lst : TaskListRec
  board : BoardRec
  isCurrentBoard : Bool
deriving DecidableEq

/-- The outcome of the list-resolution block shared verbatim by
create_card_function and move_card_function. -/
inductive ListResolution
  | noLists
  | needList (infos : List ListInfo)
  | resolved (info : ListInfo)
  | suggestion (name : String) (info : ListInfo)
  | notFound (infos : List ListInfo)
deriving DecidableEq

/-- target_lists construction: the lists of the current board first (flagged), then
the lists of every other accessible board in board order. -/
def build_target_lists (s : AppState) (userBoards : List BoardRec)
    (ctx : Option Nat) : Option BoardRec × List ListInfo :=
  let currentBoard := ctx.bind (fun bid => userBoards.find? (fun b => b.id == bid))
  let current := match currentBoard with
    | some b => (s.lists.filter (fun l => l.boardId == b.id)).map
        (fun l => ListInfo.mk l b true)
    | none => []
  let others := userBoards.flatMap (fun b =>
    match currentBoard with
    | some cb =>
        if b.id == cb.id then []
        else (s.lists.filter (fun l => l.boardId == b.id)).map
          (fun l => ListInfo.mk l b false)
    | none => (s.lists.filter (fun l => l.boardId == b.id)).map
        (fun l => ListInfo.mk l b false))
  (currentBoard, current ++ others)

/-- The "find target list with smart matching" block of create_card_function
and move_card_function: exact case-insensitive match in the current board,
then in all boards, then fuzzy in the current board, then fuzzy everywhere. -/
def resolve_target_list (f : String → List String → Option String)
    (s : AppState) (userBoards : List BoardRec) (ctx : Option Nat)
    (listName : Option String) : ListResolution :=
  let pair := build_target_lists s userBoards ctx
  let currentBoard := pair.1
  let targetLists := pair.2
  if targetLists.isEmpty then ListResolution.noLists
  else
    match listName with
    | none => ListResolution.needList targetLists
    | some name =>
        let exactCurrent :=
          if currentBoard.isSome then
            targetLists.find? (fun i =>
              i.isCurrentBoard && lowerStr i.lst.title == lowerStr name)
          else none
        let exact := match exactCurrent with
          | some i => some i
          | none => targetLists.find? (fun i => lowerStr i.lst.title == lowerStr name)
        match exact with
        | some i => ListResolution.resolved i
        | none =>
            let currentTitles :=
              (targetLists.filter (fun i => i.isCurrentBoard)).map (fun i => i.lst.title)
            let allTitles := targetLists.map (fun i => i.lst.title)
            let fromCurrent :=
              if currentTitles.isEmpty then none else f name currentTitles
            let m := match fromCurrent with
              | some v => some v
              | none => f name allTitles
            match m with
            | some v =>
                match targetLists.find? (fun i => i.lst.title == v) with
                | some i => ListResolution.suggestion v i
                | none => ListResolution.notFound targetLists
            | none => ListResolution.notFound targetLists

/-- The "Prioritize current board ... if no current board, use first board" of
delete_list_function and delete_card_function. -/
def current_board_pick (b0 : BoardRec) (bs : List BoardRec) (ctx : Option Nat) :
    BoardRec :=
  match ctx.bind (fun bid => (b0 :: bs).find? (fun b => b.id == bid)) with
  | some b => b
  | none => b0

/-- Lines 2404-2410 of main.py: position -1 resolves to len(target_list.cards),
anything else is clamped to min(position, len(target_list.cards)). -/
def chat_new_position (s : AppState) (targetListId : Nat) (position : Int) : Int :=
  let count : Int := (countListCards s targetListId : Int)
  if position == -1 then count else min position count

/-- The post-resolution body of move_card_function (lines 2401-2461): resolve
the position, run the shared shift-and-set block, record the contributor. -/
def move_card_core (s : AppState) (userId : Nat) (card : CardRec)
    (targetListId : Nat) (position : Int) : AppState :=
  move_card_apply s userId card targetListId (chat_new_position s targetListId position)

/-- The card search of delete_card_function (list omitted): scan the lists of the board
in query order, in each list take the first card whose title contains
the query case-insensitively, return the first hit with its list. -/
def find_card_with_list (s : AppState) (boardId : Nat) (q : String) :
    Option (TaskListRec × CardRec) :=
  (s.lists.filter (fun l => l.boardId == boardId)).findSome? (fun l =>
    (s.cards.find? (fun c => c.listId == l.id && ilike_contains c.title q)).map
      (fun c => (l, c)))

/-- The identical card search of move_card_function (lines 2367-2382), which
keeps only the card. -/
def find_card_in_board (s : AppState) (boardId : Nat) (q : String) :
    Option CardRec :=
  (s.lists.filter (fun l => l.boardId == boardId)).findSome? (fun l =>
    s.cards.find? (fun c => c.listId == l.id && ilike_contains c.title q))

/-- create_card_function: resolve the list, then insert the card at position =
len(target_list.cards) and record the creator as contributor. -/
def create_card_function (f : String → List String → Option String)
    (s : AppState) (userId newCardId : Nat) (cardTitle : String)
    (listName : Option String) (priority : String) (ctx : Option Nat) :
    ChatResult × AppState :=
  match get_user_boards s userId with
  | [] => (ChatResult.mk ChatStatus.error none [] none, s)
  | b0 :: bs =>
      match resolve_target_list f s (b0 :: bs) ctx listName with
      | ListResolution.noLists => (ChatResult.mk ChatStatus.error none [] none, s)
      | ListResolution.needList infos =>
          let currentOnes := infos.filter (fun i => i.isCurrentBoard)
          if currentOnes.isEmpty then
            (ChatResult.mk ChatStatus.clarificationNeeded none
              ((infos.take 5).map (fun i => i.lst.title)) none, s)
          else
            (ChatResult.mk ChatStatus.clarificationNeeded none
              (currentOnes.map (fun i => i.lst.title)) none, s)
      | ListResolution.suggestion v _ =>
          (ChatResult.mk ChatStatus.clarification (some v) [] none, s)
      | ListResolution.notFound infos =>
          (ChatResult.mk ChatStatus.error none
            ((infos.take 5).map (fun i => i.lst.title)) none, s)
      | ListResolution.resolved info =>
          let targetList := info.lst
          let maxPosition : Int := (countListCards s targetList.id : Int)
          let newCard := CardRec.mk newCardId targetList.id cardTitle maxPosition
            (priority_of_chars (lowerStr priority)) userId
          (ChatResult.mk ChatStatus.success none [] (some newCardId),
           AppState.mk s.boards s.members s.lists (s.cards ++ [newCard])
             (s.contribs ++ [ContribRec.mk newCardId userId]))

/-- delete_list_function: exact match in the current board, else fuzzy
(clarification, no write), else error with the candidate titles; on success
the list row is deleted and its cards cascade — no position compaction. -/
def delete_list_function (f : String → List String → Option String)
    (s : AppState) (userId : Nat) (listName : String) (ctx : Option Nat) :
    ChatResult × AppState :=
  match get_user_boards s userId with
  | [] => (ChatResult.mk ChatStatus.error none [] none, s)
  | b0 :: bs =>
      let currentBoard := current_board_pick b0 bs ctx
      let boardLists := s.lists.filter (fun l => l.boardId == currentBoard.id)
      match boardLists.find? (fun l => lowerStr l.title == lowerStr listName) with
      | none =>
          match f listName (boardLists.map (fun l => l.title)) with
          | some m => (ChatResult.mk ChatStatus.clarification (some m) [] none, s)
          | none =>
              (ChatResult.mk ChatStatus.error none
                (boardLists.map (fun l => l.title)) none, s)
      | some targetList =>
          if has_board_access s userId currentBoard.id then
            let removedCardIds :=
              (s.cards.filter (fun c => c.listId == targetList.id)).map (fun c => c.id)
            (ChatResult.mk ChatStatus.success none [] (some targetList.id),
             AppState.mk s.boards s.members
               (s.lists.filter (fun l => !(l.id == targetList.id)))
               (s.cards.filter (fun c => !(c.listId == targetList.id)))
               (s.contribs.filter (fun k => !(removedCardIds.contains k.cardId))))
          else (ChatResult.mk ChatStatus.error none [] none, s)

/-- move_card_function: resolve the target list, find the card by substring
search inside the target board, then run move_card_core. -/
def move_card_function (f : String → List String → Option String)
    (s : AppState) (userId : Nat) (cardTitle : String)
    (targetListName : Option String) (position : Int) (ctx : Option Nat) :
    ChatResult × AppState :=
  match get_user_boards s userId with
  | [] => (ChatResult.mk ChatStatus.error none [] none, s)
  | b0 :: bs =>
      match resolve_target_list f s (b0 :: bs) ctx targetListName with
      | ListResolution.noLists => (ChatResult.mk ChatStatus.error none [] none, s)
      | ListResolution.needList infos =>
          let currentOnes := infos.filter (fun i => i.isCurrentBoard)
          if currentOnes.isEmpty then
            (ChatResult.mk ChatStatus.clarificationNeeded none
              ((infos.take 5).map (fun i => i.lst.title)) none, s)
          else
            (ChatResult.mk ChatStatus.clarificationNeeded none
              (currentOnes.map (fun i => i.lst.title)) none, s)
      | ListResolution.suggestion v _ =>
          (ChatResult.mk ChatStatus.clarification (some v) [] none, s)
      | ListResolution.notFound infos =>
          (ChatResult.mk ChatStatus.error none
            ((infos.take 5).map (fun i => i.lst.title)) none, s)
      | ListResolution.resolved info =>
          let targetList := info.lst
          let targetBoard := info.board
          match find_card_in_board s targetBoard.id cardTitle with
          | none =>
              (ChatResult.mk ChatStatus.error none
                (((s.lists.filter (fun l => l.boardId == targetBoard.id)).flatMap
                  (fun l => s.cards.filter (fun c => c.listId == l.id))).take 10
                  |>.map (fun c => c.title)) none, s)
          | some card =>
              (ChatResult.mk ChatStatus.success none [] (some card.id),
               move_card_core s userId card targetList.id position)

/-- delete_card_function: find the card (board-wide substring scan, or inside
one resolved list), shift the later siblings of its list down by one, record
the contributor, delete the row. -/
def delete_card_apply (s : AppState) (userId sourceListId : Nat)
    (card : CardRec) : AppState :=
  let shifted := s.cards.map (fun c =>
    if c.listId = sourceListId ∧ card.position < c.position then
      setPos c (c.position - 1) else c)
  let contribs1 := add_contributor s.contribs card.id userId
  AppState.mk s.boards s.members s.lists
    (shifted.filter (fun c => !(c.id == card.id)))
    (contribs1.filter (fun k => !(k.cardId == card.id)))

def delete_card_function (f : String → List String → Option String)
    (s : AppState) (userId : Nat) (cardTitle : String)
    (listName : Option String) (ctx : Option Nat) : ChatResult × AppState :=
  match get_user_boards s userId with
  | [] => (ChatResult.mk ChatStatus.error none [] none, s)
  | b0 :: bs =>
      let currentBoard := current_board_pick b0 bs ctx
      match listName with
      | none =>
          match find_card_with_list s currentBoard.id cardTitle with
          | none =>
              (ChatResult.mk ChatStatus.error none
                (((s.lists.filter (fun l => l.boardId == currentBoard.id)).flatMap
                  (fun l => s.cards.filter (fun c => c.listId == l.id))).take 10
                  |>.map (fun c => c.title)) none, s)
          | some (srcList, card) =>
              (ChatResult.mk ChatStatus.success none [] (some card.id),
               delete_card_apply s userId srcList.id card)
      | some lname =>
          let boardLists := s.lists.filter (fun l => l.boardId == currentBoard.id)
          match boardLists.find? (fun l => lowerStr l.title == lowerStr lname) with
          | none =>
              match f lname (boardLists.map (fun l => l.title)) with
              | some m =>
                  (ChatResult.mk ChatStatus.clarification (some m) [] none, s)
              | none =>
                  (ChatResult.mk ChatStatus.error none
                    (boardLists.map (fun l => l.title)) none, s)
          | some targetList =>
              match s.cards.find? (fun c =>
                  c.listId == targetList.id && ilike_contains c.title cardTitle) with
              | none =>
                  (ChatResult.mk ChatStatus.error none
                    (((s.cards.filter (fun c => c.listId == targetList.id)).take 10).map
                      (fun c => c.title)) none, s)
              | some card =>
                  (ChatResult.mk ChatStatus.success none [] (some card.id),
                   delete_card_apply s userId targetList.id card)

/-- Lines 2666-2674 of main.py, the board-resolution step of
get_board_info_function: `target_board = user_boards[0]` (default to the first
board) and only an exact case-insensitive title match replaces that default. -/
def board_info_target (b0 : BoardRec) (bs : List BoardRec)
    (boardName : Option String) : BoardRec :=
  match boardName with
  | none => b0
  | some nm =>
      match (b0 :: bs).find? (fun b : BoardRec => lowerStr b.title == lowerStr nm) with
      | some b => b
      | none => b0

/-- get_board_info_function: after resolving the target board (see
board_info_target), the body builds board_data and there reads
`target_board.is_shared` (main.py:2683) — an attribute the ORM Board model
(models.py) never defines — so for a user with at least one board the body
raises AttributeError; the surrounding `except Exception` handler
(main.py:2698) turns that into `{"status": "error", "message": str(e)}`: an
error that carries no candidate names and no board data.  Nothing before the
raise mutates state (the function is read-only throughout). -/
def get_board_info_function (s : AppState) (userId : Nat)
    (boardName : Option String) : ChatResult × AppState :=
  match get_user_boards s userId with
  | [] => (ChatResult.mk ChatStatus.error none [] none, s)
  | b0 :: bs =>
      let _targetBoard := board_info_target b0 bs boardName
      (ChatResult.mk ChatStatus.error none [] none, s)

/-- A matcher under which every candidate falls below the 0.6 threshold. -/
def fuzzyNone : String → List String → Option String := fun _ _ => none

/-- A matcher realizing the spec scenario: "todoo" is a close match of
"To Do" (similarity at least 0.6). -/
def fuzzyTodoo : String → List String → Option String := fun q cands =>
  if q == "todoo" && cands.contains "To Do" then some "To Do" else none

/- General list lemmas used by several proofs below. -/

theorem map_eq_id_of_mem {α : Type} {l : List α} {f : α → α}
    (h : ∀ a ∈ l, f a = a) : l.map f = l := by
  induction l with
  | nil => rfl
  | cons a t ih =>
      simp only [List.map_cons]
      rw [h a (List.mem_cons_self a t), ih (fun b hb => h b (List.mem_cons_of_mem a hb))]

theorem filter_map_eq_filter {α : Type} (l : List α) (f : α → α) (p q : α → Bool)
    (h : ∀ a ∈ l, (q a = true → f a = a ∧ p a = true) ∧ (p (f a) = true → q a = true)) :
    (l.map f).filter p = l.filter q := by
  induction l with
  | nil => rfl
  | cons a t ih =>
      have ha := h a (List.mem_cons_self a t)
      have iht := ih (fun b hb => h b (List.mem_cons_of_mem a hb))
      simp only [List.map_cons, List.filter_cons]
      by_cases hq : q a = true
      · obtain ⟨hfa, hpa⟩ := ha.1 hq
        rw [hfa, hpa, hq, iht]
      · have hp : p (f a) = false := by
          cases hpf : p (f a) with
          | false => rfl
          | true => exact absurd (ha.2 hpf) hq
        rw [hp, Bool.eq_false_iff.mpr hq, iht]
        simp

theorem find_in_filter {β : Type} (cs : List β) (m p : β → Bool) :
    (cs.filter m).find? p = cs.find? (fun c => m c && p c) := by
  induction cs with
  | nil => rfl
  | cons c t ih =>
      by_cases hm : m c = true
      · by_cases hp : p c = true
        · simp [List.filter_cons, hm, List.find?_cons, hp]
        · simp [List.filter_cons, hm, List.find?_cons, hp, ih]
      · simp [List.filter_cons, hm, List.find?_cons, ih]

theorem findSome_find_filter {α β : Type} (ls : List α) (cs : List β)
    (m : α → β → Bool) (p : β → Bool) :
    ls.findSome? (fun l => cs.find? (fun c => m l c && p c))
      = (ls.flatMap (fun l => cs.filter (fun c => m l c))).find? p := by
  induction ls with
  | nil => rfl
  | cons l t ih =>
      rw [List.findSome?_cons, List.flatMap_cons, List.find?_append, find_in_filter]
      cases hfl : cs.find? (fun c => m l c && p c) with
      | some c => rfl
      | none => rw [Option.none_or]; exact ih

theorem findSome_map_snd {α β : Type} (ls : List α) (g : α → Option β) :
    (ls.findSome? (fun l => (g l).map (fun c => (l, c)))).map Prod.snd
      = ls.findSome? g := by
  induction ls with
  | nil => rfl
  | cons l t ih =>
      simp only [List.findSome?_cons]
      cases hgl : g l with
      | some c => simp
      | none => simp [ih]

theorem mem_unique_of_nodup_ids {α β : Type} [DecidableEq β] {l : List α}
    {f : α → β} (h : (l.map f).Nodup) {a b : α} (ha : a ∈ l) (hb : b ∈ l)
    (hfe : f a = f b) : a = b := by
  induction l with
  | nil => cases ha
  | cons x t ih =>
      simp only [List.map_cons, List.nodup_cons] at h
      rcases List.mem_cons.mp ha with rfl | ha2
      · rcases List.mem_cons.mp hb with rfl | hb2
        · rfl
        · exact absurd (hfe ▸ List.mem_map_of_mem f hb2) h.1
      · rcases List.mem_cons.mp hb with rfl | hb2
        · exact absurd (hfe ▸ List.mem_map_of_mem f ha2) h.1
        · exact ih h.2 ha2 hb2

/-- All cards of a board in the order the chatbot card search scans them:
lists of the board in query order, cards of each list in row order. -/
def board_cards_in_scan_order (s : AppState) (boardId : Nat) : List CardRec :=
  (s.lists.filter (fun l => l.boardId == boardId)).flatMap
    (fun l => s.cards.filter (fun c => c.listId == l.id))

/- Concrete states used by the per-claim theorems.  User 1 owns every board
unless noted; ids are arbitrary but distinct. -/

/-- Board 1 with one list (id 10) holding two dense cards at positions 0, 1. -/
def exStateC1 : AppState := AppState.mk
  [BoardRec.mk 1 "Work" 1] []
  [TaskListRec.mk 10 1 "To Do" 0]
  [CardRec.mk 100 10 "A" 0 Priority.medium 1,
   CardRec.mk 101 10 "B" 1 Priority.medium 1]
  []

/-- Board 1 with three dense lists (positions 0,1,2); list 10 holds 3 cards. -/
def exStateC2 : AppState := AppState.mk
  [BoardRec.mk 1 "Work" 1] []
  [TaskListRec.mk 10 1 "To Do" 0,
   TaskListRec.mk 11 1 "Doing" 1,
   TaskListRec.mk 12 1 "Done" 2]
  [CardRec.mk 100 10 "A" 0 Priority.medium 1,
   CardRec.mk 101 10 "B" 1 Priority.medium 1,
   CardRec.mk 102 10 "C" 2 Priority.medium 1]
  []

def exStateC2After : AppState :=
  match delete_list exStateC2 1 10 with
  | Except.ok s2 => s2
  | Except.error _ => exStateC2

/-- Board 1, list 10 with three dense cards, list 11 with one card. -/
def exStateC3 : AppState := AppState.mk
  [BoardRec.mk 1 "Work" 1] []
  [TaskListRec.mk 10 1 "To Do" 0, TaskListRec.mk 11 1 "Done" 1]
  [CardRec.mk 100 10 "Alpha" 0 Priority.medium 1,
   CardRec.mk 101 10 "Beta" 1 Priority.medium 1,
   CardRec.mk 102 10 "Gamma" 2 Priority.medium 1,
   CardRec.mk 200 11 "Omega" 0 Priority.medium 1]
  []

/-- Board 1 with a single list "Ten" (id 10) holding two dense cards. -/
def exStateC4 : AppState := AppState.mk
  [BoardRec.mk 1 "Work" 1] []
  [TaskListRec.mk 10 1 "Ten" 0]
  [CardRec.mk 100 10 "Alpha" 0 Priority.medium 1,
   CardRec.mk 101 10 "Beta" 1 Priority.medium 1]
  []

/-- Board 1 with source list 10 (one card) and target list 20 (two cards). -/
def exStateC4b : AppState := AppState.mk
  [BoardRec.mk 1 "Work" 1] []
  [TaskListRec.mk 10 1 "Src" 0, TaskListRec.mk 20 1 "Dst" 1]
  [CardRec.mk 100 10 "Alpha" 0 Priority.medium 1,
   CardRec.mk 200 20 "B0" 0 Priority.medium 1,
   CardRec.mk 201 20 "B1" 1 Priority.medium 1]
  []

def exCardC4b : CardRec := CardRec.mk 100 10 "Alpha" 0 Priority.medium 1

/-- Board 1 owned by user 1 and shared with member user 2; one card created by
user 1, whose only contributor is user 1. -/
def exStateC5 : AppState := AppState.mk
  [BoardRec.mk 1 "Work" 1] [MemberRec.mk 1 2]
  [TaskListRec.mk 10 1 "To Do" 0]
  [CardRec.mk 100 10 "A" 0 Priority.medium 1]
  [ContribRec.mk 100 1]

/-- The spec scenario state: board "Work" with lists "To Do", "Doing", "Done". -/
def exStateC6 : AppState := AppState.mk
  [BoardRec.mk 1 "Work" 1] []
  [TaskListRec.mk 10 1 "To Do" 0,
   TaskListRec.mk 11 1 "Doing" 1,
   TaskListRec.mk 12 1 "Done" 2]
  [CardRec.mk 100 10 "A" 0 Priority.medium 1]
  [ContribRec.mk 100 1]

/-- User 1 owns two boards; "Work" comes first. -/
def exStateC7 : AppState := AppState.mk
  [BoardRec.mk 1 "Work" 1, BoardRec.mk 2 "Home" 1] []
  [TaskListRec.mk 10 1 "To Do" 0, TaskListRec.mk 20 2 "Chores" 0]
  [] []

/-- Two boards with one list each; the card lives on board 1, the requested
target list on board 2. -/
def exStateC8 : AppState := AppState.mk
  [BoardRec.mk 1 "Work" 1, BoardRec.mk 2 "Home" 1] []
  [TaskListRec.mk 10 1 "To Do" 0, TaskListRec.mk 20 2 "Chores" 0]
  [CardRec.mk 100 10 "A" 0 Priority.medium 1]
  []

/-- Board 1 with two lists and two cards in list 10. -/
def exStateC9 : AppState := AppState.mk
  [BoardRec.mk 1 "Work" 1] []
  [TaskListRec.mk 10 1 "To Do" 0, TaskListRec.mk 11 1 "Done" 1]
  [CardRec.mk 100 10 "A" 0 Priority.medium 1,
   CardRec.mk 101 10 "B" 1 Priority.medium 1]
  []

/-- Board 1: list 1 holds "Domino effect", list 2 holds a card titled exactly
"do".  A substring scan for "do" hits "Domino effect" first even though the
later card is an exact-title (maximal-similarity) candidate. -/
def exStateC10 : AppState := AppState.mk
  [BoardRec.mk 1 "Work" 1] []
  [TaskListRec.mk 1 1 "L1" 0, TaskListRec.mk 2 1 "L2" 1]
  [CardRec.mk 100 1 "Domino effect" 0 Priority.medium 1,
   CardRec.mk 200 2 "do" 0 Priority.medium 1]
  []

def exCardDomino : CardRec := CardRec.mk 100 1 "Domino effect" 0 Priority.medium 1

/-- Claim C1 (code_bug evidence): the REST delete_card endpoint violates the
dense-position invariant.  Starting from a dense list (positions 0,1), one
DELETE /api/cards on the card at position 0 succeeds, yet the surviving card
keeps position 1, so the positions are {1}, not {0}: the endpoint deletes the
row without shifting the later siblings down. -/
theorem c1_rest_delete_card_breaks_dense_invariant :
    (delete_card exStateC1 1 100).map
        (fun s2 => (listPositions s2 10, denseOk (listPositions s2 10)))
      = Except.ok ([1], false) := by decide

/-- Claim C2 (counterexample): deleting the list at position 0 of a board whose
lists sit at positions 0,1,2 does cascade away its 3 cards, but the surviving
lists keep positions [1,2] — they are NOT compacted to [0,1] as the claim
states. -/
theorem c2_counterexample_delete_list_does_not_compact :
    (delete_list exStateC2 1 10).map
        (fun s2 => (boardListPositions s2 1, s2.cards.length))
      = Except.ok ([1, 2], 0) := by decide

/-- Claim C2 (amended): deleting a list removes the list row and cascades to
exactly the cards it contained, while every surviving list keeps its stored
position unchanged — no compaction pass runs, so the dense 0..N-1 range is not
restored. -/
theorem c2_amended_delete_list_cascades_without_compaction
    (s s2 : AppState) (userId listId : Nat)
    (h : delete_list s userId listId = Except.ok s2) :
    s2.boards = s.boards ∧
    s2.lists = s.lists.filter (fun l => !(l.id == listId)) ∧
    s2.cards = s.cards.filter (fun c => !(c.listId == listId)) := by
  unfold delete_list at h
  split at h
  · cases h
  · split at h
    · cases h
      exact ⟨rfl, rfl, rfl⟩
    · cases h

/-- Claim C2 witness: the amended theorem applied to the concrete board of the
counterexample. -/
theorem c2_amended_witness :
    exStateC2After.boards = exStateC2.boards ∧
    exStateC2After.lists = exStateC2.lists.filter (fun l => !(l.id == 10)) ∧
    exStateC2After.cards = exStateC2.cards.filter (fun c => !(c.listId == 10)) :=
  c2_amended_delete_list_cascades_without_compaction exStateC2 exStateC2After 1 10
    (by decide)

/-- Claim C3 (code_bug evidence): of the two delete paths, only the chatbot one
obeys the claim.  On the same dense 3-card list, the REST delete_card endpoint
removes the middle card and leaves the siblings at positions [0,2] (no shift),
while delete_card_function removes it and shifts the later sibling down to
leave [0,1] and touches no card of the other list. -/
theorem c3_delete_card_shift_divergence :
    ((delete_card exStateC3 1 101).map (fun s2 => listPositions s2 10)
        = Except.ok [0, 2]) ∧
    (let r := delete_card_function fuzzyNone exStateC3 1 "Beta" none (some 1)
     r.1.status = ChatStatus.success ∧
     listPositions r.2 10 = [0, 1] ∧ listPositions r.2 11 = [0]) := by
  exact ⟨by decide, by decide, by decide, by decide⟩

/-- Claim C4 (counterexample): in move_card_function a same-list move of the
card at position 0 of a 2-card list to requested position 5 succeeds and is
clamped to min(5, 2) = 2 — the CARD COUNT, not the last valid index 1 — so the
card ends at position 2 and the list positions [2,0] have a gap: not
append-to-end semantics. -/
theorem c4_counterexample_same_list_clamp_overshoots :
    (let r := move_card_function fuzzyNone exStateC4 1 "Alpha" (some "Ten") 5 (some 1)
     r.1.status = ChatStatus.success ∧
     listPositions r.2 10 = [2, 0] ∧
     denseOk (listPositions r.2 10) = false ∧
     countListCards r.2 10 = 2) := by
  exact ⟨by decide, by decide, by decide, by decide⟩

/-- Claim C5 (counterexample): member user 2 moves a card to its own current
list and position.  Every card keeps its position and list, yet the state
after differs from the state before: a contributor row (card 100, user 2) is
inserted, so the move is NOT a complete no-op on the observable state. -/
theorem c5_counterexample_move_to_self_adds_contributor :
    (move_card exStateC5 2 100 10 0).map
        (fun s2 => (s2.cards == exStateC5.cards,
                    s2.contribs == exStateC5.contribs ++ [ContribRec.mk 100 2],
                    s2 == exStateC5))
      = Except.ok (true, true, false) := by decide

/-- Claim C7 (counterexample): get_board_info_function is asked for board
"Quarterly Plan", which matches no candidate ("Work", "Home") even remotely.
Its resolution step silently picks the FIRST board ("Work") as a default
instead of failing, and the operation then answers with an error that carries
NO candidate names (the AttributeError on the undefined Board.is_shared,
main.py:2683, collapsed by the except handler) — not the failure listing the
available candidates that the claim promises. -/
theorem c7_counterexample_board_info_error_without_candidates :
    board_info_target (BoardRec.mk 1 "Work" 1) [BoardRec.mk 2 "Home" 1]
        (some "Quarterly Plan") = BoardRec.mk 1 "Work" 1 ∧
    get_board_info_function exStateC7 1 (some "Quarterly Plan")
      = (ChatResult.mk ChatStatus.error none [] none, exStateC7) := by decide

/-- Claim C10: the chatbot card search used by move_card_function and
delete_card_function returns the FIRST card, scanning the lists of the board in
query order and the cards of each list in row order, whose title contains the query
case-insensitively (general equation), and keeps only the card of the
(list, card) pair (second equation).  Concretely, searching "do" (and "DO")
returns "Domino effect" from the first list even though a card titled exactly
"do" — the maximal-similarity candidate — exists in a later list, and both
chatbot operations act on that first match. -/
theorem c10_card_search_is_first_substring_match :
    (∀ (s : AppState) (boardId : Nat) (q : String),
      find_card_in_board s boardId q
        = (board_cards_in_scan_order s boardId).find?
            (fun c => ilike_contains c.title q)) ∧
    (∀ (s : AppState) (boardId : Nat) (q : String),
      (find_card_with_list s boardId q).map Prod.snd = find_card_in_board s boardId q) ∧
    find_card_in_board exStateC10 1 "do" = some exCardDomino ∧
    find_card_in_board exStateC10 1 "DO" = some exCardDomino ∧
    exCardDomino.title ≠ "do" ∧
    (exStateC10.cards.filter (fun c => c.title == "do")).map (fun c => c.id) = [200] ∧
    (delete_card_function fuzzyNone exStateC10 1 "do" none (some 1)).1.affectedId = some 100 ∧
    (move_card_function fuzzyNone exStateC10 1 "do" (some "L2") 0 (some 1)).1.affectedId = some 100 := by
  refine ⟨?_, ?_, by decide, by decide, by decide, by decide, by decide, by decide⟩
  · intro s boardId q
    exact findSome_find_filter (s.lists.filter (fun l => l.boardId == boardId))
      s.cards (fun l c => c.listId == l.id) (fun c => ilike_contains c.title q)
  · intro s boardId q
    exact findSome_map_snd (s.lists.filter (fun l => l.boardId == boardId))
      (fun l => s.cards.find? (fun c => c.listId == l.id && ilike_contains c.title q))

/-- Claim C8: a move whose resolved target list belongs to a different board
than the current list of the card is answered with the cross-board error before the
shift-and-set block runs; the error response means nothing was committed, so
no position, membership or contributor row changes. -/
theorem c8_cross_board_move_rejected_before_any_write
    (s : AppState) (userId cardId newListId : Nat) (newPosition : Int)
    (card : CardRec) (sourceList targetList : TaskListRec)
    (hc : s.cards.find? (fun c => c.id == cardId) = some card)
    (hs : s.lists.find? (fun l => l.id == card.listId) = some sourceList)
    (hacc : has_board_access s userId sourceList.boardId = true)
    (ht : s.lists.find? (fun l => l.id == newListId) = some targetList)
    (hbd : sourceList.boardId ≠ targetList.boardId) :
    move_card s userId cardId newListId newPosition
      = Except.error ApiError.crossBoardMove := by
  unfold move_card
  simp only [hc, hs, ht, hacc, if_true, hbd, ite_true]
  rw [if_pos hbd]

/-- Claim C8 witness: the concrete two-board state. -/
theorem c8_witness :
    move_card exStateC8 1 100 20 0 = Except.error ApiError.crossBoardMove :=
  c8_cross_board_move_rejected_before_any_write exStateC8 1 100 20 0
    (CardRec.mk 100 10 "A" 0 Priority.medium 1)
    (TaskListRec.mk 10 1 "To Do" 0) (TaskListRec.mk 20 2 "Chores" 0)
    (by decide) (by decide) (by decide) (by decide) (by decide)

/-- Claim C9: appending a list to a board or a card to a list stores position =
sibling count before the insertion and leaves every pre-existing row exactly as
it was (the new row is appended after them). -/
theorem c9_append_assigns_position_equal_to_prior_count
    (s sL sC : AppState) (userId newListId boardId newCardId listId : Nat)
    (tL tC : String) (pr : Option String)
    (h1 : create_list s userId newListId boardId tL = Except.ok sL)
    (h2 : create_card s userId newCardId listId tC pr = Except.ok sC) :
    (sL.lists = s.lists ++
        [TaskListRec.mk newListId boardId tL (countBoardLists s boardId : Int)]
      ∧ sL.cards = s.cards ∧ sL.contribs = s.contribs) ∧
    (sC.cards = s.cards ++
        [CardRec.mk newCardId listId tC (countListCards s listId : Int)
          (endpoint_priority pr) userId]
      ∧ sC.lists = s.lists
      ∧ sC.contribs = s.contribs ++ [ContribRec.mk newCardId userId]) := by
  constructor
  · unfold create_list at h1
    split at h1
    · cases h1
      exact ⟨rfl, rfl, rfl⟩
    · cases h1
  · unfold create_card at h2
    split at h2
    · cases h2
    · split at h2
      · cases h2
        exact ⟨rfl, rfl, rfl⟩
      · cases h2

def exStateC9L : AppState :=
  match create_list exStateC9 1 12 1 "New" with
  | Except.ok s2 => s2
  | Except.error _ => exStateC9

def exStateC9C : AppState :=
  match create_card exStateC9 1 102 10 "C" (some "high") with
  | Except.ok s2 => s2
  | Except.error _ => exStateC9

/-- Claim C9 witness: appending list 12 to board 1 (2 prior lists) and card 102
to list 10 (2 prior cards) of the concrete state. -/
theorem c9_witness :
    (exStateC9L.lists = exStateC9.lists ++
        [TaskListRec.mk 12 1 "New" (countBoardLists exStateC9 1 : Int)]
      ∧ exStateC9L.cards = exStateC9.cards ∧ exStateC9L.contribs = exStateC9.contribs) ∧
    (exStateC9C.cards = exStateC9.cards ++
        [CardRec.mk 102 10 "C" (countListCards exStateC9 10 : Int)
          (endpoint_priority (some "high")) 1]
      ∧ exStateC9C.lists = exStateC9.lists
      ∧ exStateC9C.contribs = exStateC9.contribs ++ [ContribRec.mk 102 1]) :=
  c9_append_assigns_position_equal_to_prior_count exStateC9 exStateC9L exStateC9C
    1 12 1 102 10 "New" "C" (some "high") (by decide) (by decide)

/-- Claim C5 (amended): moving a card to its own current list and position
leaves every board, member, list and card row exactly as it was — no position
shifts and no membership change — and the only possible difference is the
contributor bookkeeping: the invoking user is added as a contributor of the
card when not already recorded; when the user already is a contributor the
whole state is unchanged. -/
theorem c5_amended_move_to_own_position_changes_only_contributors
    (s s2 : AppState) (userId cardId newListId : Nat) (newPosition : Int)
    (card : CardRec)
    (hfind : s.cards.find? (fun c => c.id == cardId) = some card)
    (hnodup : (s.cards.map (fun c => c.id)).Nodup)
    (hlist : card.listId = newListId) (hpos : card.position = newPosition)
    (h : move_card s userId cardId newListId newPosition = Except.ok s2) :
    s2.boards = s.boards ∧ s2.members = s.members ∧ s2.lists = s.lists ∧
    s2.cards = s.cards ∧
    s2.contribs = add_contributor s.contribs cardId userId ∧
    ((s.contribs.find? (fun k => k.cardId == cardId && k.userId == userId)).isSome = true
      → s2 = s) := by
  have hcard_mem : card ∈ s.cards := List.mem_of_find?_eq_some hfind
  have hcard_id : card.id = cardId := by
    have hb := List.find?_some hfind
    simpa using hb
  subst hlist
  subst hpos
  unfold move_card at h
  simp only [hfind] at h
  cases hsl : s.lists.find? (fun l => l.id == card.listId) with
  | none =>
      simp only [hsl] at h
      cases h
  | some srcL =>
      simp only [hsl] at h
      by_cases hacc : has_board_access s userId srcL.boardId = true
      · rw [if_pos hacc, if_neg (fun hh : srcL.boardId ≠ srcL.boardId => hh rfl)] at h
        have hshift : shift_for_move s.cards card.listId card.position
            card.listId card.position = s.cards := by
          unfold shift_for_move
          rw [if_neg (fun hh => hh rfl)]
          rw [if_neg (lt_irrefl card.position)]
          rw [if_neg (lt_irrefl card.position)]
        have hmap : (s.cards.map (updCard card.id card.listId card.position))
            = s.cards := by
          apply map_eq_id_of_mem
          intro c hcmem
          unfold updCard
          by_cases hid : (c.id == card.id) = true
          · have hceq : c = card :=
              mem_unique_of_nodup_ids hnodup hcmem hcard_mem (by simpa using hid)
            subst hceq
            rw [if_pos hid]
            rfl
          · rw [if_neg hid]
        have hs2 : s2 = AppState.mk s.boards s.members s.lists s.cards
            (add_contributor s.contribs card.id userId) := by
          cases h
          unfold move_card_apply
          dsimp only
          rw [hshift, hmap]
        subst hs2
        rw [hcard_id]
        refine ⟨rfl, rfl, rfl, rfl, rfl, ?_⟩
        intro hsome
        unfold add_contributor
        rw [if_pos hsome]
      · rw [if_neg hacc] at h
        cases h

def exStateC5b : AppState := AppState.mk
  [BoardRec.mk 1 "Work" 1] [MemberRec.mk 1 2]
  [TaskListRec.mk 10 1 "To Do" 0]
  [CardRec.mk 100 10 "A" 0 Priority.medium 1]
  [ContribRec.mk 100 1, ContribRec.mk 100 2]

def exStateC5bAfter : AppState :=
  match move_card exStateC5b 2 100 10 0 with
  | Except.ok s2 => s2
  | Except.error _ => exStateC5b

/-- Claim C5 witness: user 2, already a contributor of card 100, moves it onto
its own position; the amended theorem yields an entirely unchanged state. -/
theorem c5_amended_witness :
    exStateC5bAfter.boards = exStateC5b.boards ∧
    exStateC5bAfter.members = exStateC5b.members ∧
    exStateC5bAfter.lists = exStateC5b.lists ∧
    exStateC5bAfter.cards = exStateC5b.cards ∧
    exStateC5bAfter.contribs = add_contributor exStateC5b.contribs 100 2 ∧
    ((exStateC5b.contribs.find? (fun k => k.cardId == 100 && k.userId == 2)).isSome = true
      → exStateC5bAfter = exStateC5b) :=
  c5_amended_move_to_own_position_changes_only_contributors exStateC5b
    exStateC5bAfter 2 100 10 0 (CardRec.mk 100 10 "A" 0 Priority.medium 1)
    (by decide) (by decide) (by decide) (by decide) (by decide)

/-- Claim C6: when list resolution finds no exact match and the fuzzy matcher
produces a suggested match, create_card_function and delete_list_function
return a clarification result carrying the suggestion and leave the state
completely unchanged — no record of any kind is created, deleted or
modified. -/
theorem c6_fuzzy_suggestion_clarifies_without_mutation
    (f : String → List String → Option String) (s : AppState)
    (userId newCardId : Nat) (cardTitle listName priority : String)
    (ctx : Option Nat) (b0 cb : BoardRec) (bs : List BoardRec)
    (m : String) (info : ListInfo)
    (hub : get_user_boards s userId = b0 :: bs) :
    (resolve_target_list f s (b0 :: bs) ctx (some listName)
        = ListResolution.suggestion m info →
      create_card_function f s userId newCardId cardTitle (some listName) priority ctx
        = (ChatResult.mk ChatStatus.clarification (some m) [] none, s)) ∧
    (current_board_pick b0 bs ctx = cb →
     (s.lists.filter (fun l => l.boardId == cb.id)).find?
        (fun l => lowerStr l.title == lowerStr listName) = none →
     f listName ((s.lists.filter (fun l => l.boardId == cb.id)).map (fun l => l.title))
        = some m →
      delete_list_function f s userId listName ctx
        = (ChatResult.mk ChatStatus.clarification (some m) [] none, s)) := by
  constructor
  · intro hres
    unfold create_card_function
    simp only [hub, hres]
  · intro hcb hex hfz
    unfold delete_list_function
    simp only [hub, hcb, hex, hfz]

/-- Claim C6 witness: the spec scenario — resolving list name "todoo" against
board "Work" with lists ["To Do","Doing","Done"] suggests "To Do"; both cited
operations answer with a clarification and the state is untouched. -/
theorem c6_witness :
    (create_card_function fuzzyTodoo exStateC6 1 999 "Task X" (some "todoo")
        "medium" (some 1)
      = (ChatResult.mk ChatStatus.clarification (some "To Do") [] none, exStateC6)) ∧
    (delete_list_function fuzzyTodoo exStateC6 1 "todoo" (some 1)
      = (ChatResult.mk ChatStatus.clarification (some "To Do") [] none, exStateC6)) :=
  And.intro
    ((c6_fuzzy_suggestion_clarifies_without_mutation fuzzyTodoo exStateC6 1 999
        "Task X" "todoo" "medium" (some 1) (BoardRec.mk 1 "Work" 1)
        (BoardRec.mk 1 "Work" 1) [] "To Do"
        (ListInfo.mk (TaskListRec.mk 10 1 "To Do" 0) (BoardRec.mk 1 "Work" 1) true)
        (by decide)).1 (by decide))
    ((c6_fuzzy_suggestion_clarifies_without_mutation fuzzyTodoo exStateC6 1 999
        "Task X" "todoo" "medium" (some 1) (BoardRec.mk 1 "Work" 1)
        (BoardRec.mk 1 "Work" 1) [] "To Do"
        (ListInfo.mk (TaskListRec.mk 10 1 "To Do" 0) (BoardRec.mk 1 "Work" 1) true)
        (by decide)).2 (by decide) (by decide) (by decide))

/-- Claim C7 (amended): when a list name matches no candidate exactly and the
fuzzy matcher clears no candidate (similarity below the 0.6 threshold
everywhere), create_card_function answers with an error that carries the
candidate list titles capped at the display limit of 5 and mutates nothing.
get_board_info_function, however, never produces a failure carrying the
candidate names: its resolution step performs no fuzzy matching and silently
defaults to the FIRST board whenever the requested name has no exact match,
and the operation then always returns a bare error for a user with boards,
because building the reply reads the undefined Board.is_shared attribute and
the except handler swallows the AttributeError. -/
theorem c7_amended_candidates_capped_but_board_info_errors_bare
    (f : String → List String → Option String) (s : AppState)
    (userId newCardId : Nat) (cardTitle name nm : String) (ctx : Option Nat)
    (b0 : BoardRec) (bs : List BoardRec) (cbo : Option BoardRec)
    (infos : List ListInfo)
    (hub : get_user_boards s userId = b0 :: bs)
    (htl : build_target_lists s (b0 :: bs) ctx = (cbo, infos))
    (hne : infos.isEmpty = false)
    (hex : ∀ i ∈ infos, (lowerStr i.lst.title == lowerStr name) = false)
    (hfzc : ((infos.filter (fun i => i.isCurrentBoard)).map
          (fun i => i.lst.title)).isEmpty = true ∨
        f name ((infos.filter (fun i => i.isCurrentBoard)).map
          (fun i => i.lst.title)) = none)
    (hfza : f name (infos.map (fun i => i.lst.title)) = none) :
    (create_card_function f s userId newCardId cardTitle (some name) "medium" ctx
        = (ChatResult.mk ChatStatus.error none
            ((infos.take 5).map (fun i => i.lst.title)) none, s)) ∧
    (get_board_info_function s userId (some nm)
        = (ChatResult.mk ChatStatus.error none [] none, s)) ∧
    ((∀ b ∈ b0 :: bs, (lowerStr b.title == lowerStr nm) = false) →
      board_info_target b0 bs (some nm) = b0) := by
  have hfind1 : infos.find?
      (fun i => i.isCurrentBoard && (lowerStr i.lst.title == lowerStr name)) = none :=
    List.find?_eq_none.mpr (fun i hi => by simp [hex i hi])
  have hfind2 : infos.find?
      (fun i => lowerStr i.lst.title == lowerStr name) = none :=
    List.find?_eq_none.mpr (fun i hi => by simp [hex i hi])
  have hres : resolve_target_list f s (b0 :: bs) ctx (some name)
      = ListResolution.notFound infos := by
    unfold resolve_target_list
    rw [htl]
    rcases hfzc with hemp | hnone
    · cases cbo <;> simp [hne, hfind1, hfind2, hemp, hfza]
    · cases cbo <;>
        cases hemp2 : ((infos.filter (fun i => i.isCurrentBoard)).map
          (fun i => i.lst.title)).isEmpty <;>
        simp [hne, hfind1, hfind2, hemp2, hnone, hfza]
  refine ⟨?_, ?_, ?_⟩
  · unfold create_card_function
    simp only [hub, hres]
  · unfold get_board_info_function
    simp only [hub]
  · intro hbm
    have hf : (b0 :: bs).find? (fun b : BoardRec => lowerStr b.title == lowerStr nm)
        = none :=
      List.find?_eq_none.mpr (fun b hb => by simp [hbm b hb])
    unfold board_info_target
    simp only [hf]

def exInfosC7 : List ListInfo :=
  [ListInfo.mk (TaskListRec.mk 10 1 "To Do" 0) (BoardRec.mk 1 "Work" 1) true,
   ListInfo.mk (TaskListRec.mk 20 2 "Chores" 0) (BoardRec.mk 2 "Home" 1) false]

/-- Claim C7 witness: the name "zzzz" matches nothing; create_card_function
errors with the candidate titles and leaves the state alone, while
get_board_info_function returns a bare error and its resolution step had
defaulted to the first board. -/
theorem c7_amended_bare_error_witness :
    (create_card_function fuzzyNone exStateC7 1 999 "T" (some "zzzz") "medium" (some 1)
        = (ChatResult.mk ChatStatus.error none
            ((exInfosC7.take 5).map (fun i => i.lst.title)) none, exStateC7)) ∧
    (get_board_info_function exStateC7 1 (some "zzzz")
        = (ChatResult.mk ChatStatus.error none [] none, exStateC7)) ∧
    board_info_target (BoardRec.mk 1 "Work" 1) [BoardRec.mk 2 "Home" 1]
        (some "zzzz") = BoardRec.mk 1 "Work" 1 :=
  And.intro
    ((c7_amended_candidates_capped_but_board_info_errors_bare fuzzyNone exStateC7
        1 999 "T" "zzzz" "zzzz" (some 1) (BoardRec.mk 1 "Work" 1)
        [BoardRec.mk 2 "Home" 1] (some (BoardRec.mk 1 "Work" 1)) exInfosC7
        (by decide) (by decide) (by decide) (by decide) (Or.inr (by decide))
        (by decide)).1)
    (And.intro
      ((c7_amended_candidates_capped_but_board_info_errors_bare fuzzyNone exStateC7
          1 999 "T" "zzzz" "zzzz" (some 1) (BoardRec.mk 1 "Work" 1)
          [BoardRec.mk 2 "Home" 1] (some (BoardRec.mk 1 "Work" 1)) exInfosC7
          (by decide) (by decide) (by decide) (by decide) (Or.inr (by decide))
          (by decide)).2.1)
      ((c7_amended_candidates_capped_but_board_info_errors_bare fuzzyNone exStateC7
          1 999 "T" "zzzz" "zzzz" (some 1) (BoardRec.mk 1 "Work" 1)
          [BoardRec.mk 2 "Home" 1] (some (BoardRec.mk 1 "Work" 1)) exInfosC7
          (by decide) (by decide) (by decide) (by decide) (Or.inr (by decide))
          (by decide)).2.2 (by decide)))

/- Field-preservation facts about the three row updates of a move. -/

theorem shiftSrc_id (ol : Nat) (op : Int) (c : CardRec) :
    (shiftSrc ol op c).id = c.id := by
  unfold shiftSrc
  split <;> rfl

theorem shiftSrc_listId (ol : Nat) (op : Int) (c : CardRec) :
    (shiftSrc ol op c).listId = c.listId := by
  unfold shiftSrc
  split <;> rfl

theorem shiftDst_id (nl : Nat) (np : Int) (c : CardRec) :
    (shiftDst nl np c).id = c.id := by
  unfold shiftDst
  split <;> rfl

theorem shiftDst_listId (nl : Nat) (np : Int) (c : CardRec) :
    (shiftDst nl np c).listId = c.listId := by
  unfold shiftDst
  split <;> rfl

theorem updCard_id (cid nl : Nat) (np : Int) (c : CardRec) :
    (updCard cid nl np c).id = c.id := by
  unfold updCard
  split <;> rfl

theorem shiftSrc_eq_self_of_ne {ol : Nat} {c : CardRec} (op : Int)
    (h : c.listId ≠ ol) : shiftSrc ol op c = c :=
  if_neg (fun hh => h hh.1)

theorem shiftSrc_self (c : CardRec) : shiftSrc c.listId c.position c = c :=
  if_neg (fun hh => lt_irrefl c.position hh.2)

theorem shiftDst_eq_self_of_ne {nl : Nat} {c : CardRec} (np : Int)
    (h : c.listId ≠ nl) : shiftDst nl np c = c :=
  if_neg (fun hh => h hh.1)

theorem shiftDst_eq_self_of_lt {nl : Nat} {np : Int} {c : CardRec}
    (h : c.position < np) : shiftDst nl np c = c :=
  if_neg (fun hh => absurd hh.2 (not_le.mpr h))

theorem updCard_eq_self {cid : Nat} {c : CardRec} (nl : Nat) (np : Int)
    (h : (c.id == cid) = false) : updCard cid nl np c = c := by
  unfold updCard
  rw [h]
  rfl

/-- Claim C4 (amended): after list resolution, move_card_function resolves the
requested position as -1 ↦ len(target_list.cards) and otherwise
min(position, len(target_list.cards)) — clamping to the CARD COUNT of the target
rather than rejecting.  For a cross-list move whose requested position is -1
or beyond bounds this is append-to-end: the moved card is stored with
list_id = target and position = count, and every pre-existing card of the
target list keeps its row unchanged, so the card sits alone at the end.
(For a same-list move the same count exceeds the last valid index and leaves a
gap — the counterexample theorem; and the REST move_card endpoint applies no
clamping at all.) -/
theorem c4_amended_out_of_bounds_cross_move_appends_at_count
    (s : AppState) (userId : Nat) (card : CardRec) (targetListId : Nat) (p : Int)
    (hmem : card ∈ s.cards)
    (hnodup : (s.cards.map (fun c => c.id)).Nodup)
    (hsrc : card.listId ≠ targetListId)
    (hp : p = -1 ∨ (countListCards s targetListId : Int) ≤ p)
    (hlt : ∀ c ∈ s.cards, c.listId = targetListId →
      c.position < (countListCards s targetListId : Int)) :
    chat_new_position s targetListId p = (countListCards s targetListId : Int) ∧
    setListPos card targetListId (countListCards s targetListId : Int)
      ∈ (move_card_core s userId card targetListId p).cards ∧
    (move_card_core s userId card targetListId p).cards.filter
        (fun c => c.listId == targetListId && !(c.id == card.id))
      = s.cards.filter (fun c => c.listId == targetListId) := by
  have hnp : chat_new_position s targetListId p
      = (countListCards s targetListId : Int) := by
    unfold chat_new_position
    rcases hp with hp1 | hp2
    · subst hp1
      simp
    · have hne : p ≠ -1 := by
        intro hh
        subst hh
        omega
      simp [hne, min_eq_right hp2]
  refine ⟨hnp, ?_, ?_⟩
  · unfold move_card_core
    rw [hnp]
    unfold move_card_apply shift_for_move
    rw [if_pos hsrc]
    dsimp only
    rw [List.map_map, List.map_map]
    have hcardF : (updCard card.id targetListId (countListCards s targetListId : Int)
        ∘ (shiftDst targetListId (countListCards s targetListId : Int)
          ∘ shiftSrc card.listId card.position)) card
        = setListPos card targetListId (countListCards s targetListId : Int) := by
      have h1 : shiftSrc card.listId card.position card = card := shiftSrc_self card
      have h2 : shiftDst targetListId (countListCards s targetListId : Int) card
          = card := shiftDst_eq_self_of_ne _ hsrc
      have h3 : updCard card.id targetListId (countListCards s targetListId : Int) card
          = setListPos card targetListId (countListCards s targetListId : Int) := by
        unfold updCard
        rw [if_pos (by simp)]
      simp [Function.comp, h1, h2, h3]
    rw [← hcardF]
    exact List.mem_map_of_mem _ hmem
  · unfold move_card_core
    rw [hnp]
    unfold move_card_apply shift_for_move
    rw [if_pos hsrc]
    dsimp only
    rw [List.map_map, List.map_map]
    apply filter_map_eq_filter
    intro a ha
    constructor
    · intro hqa
      have haL : a.listId = targetListId := by simpa using hqa
      have hane : (a.id == card.id) = false := by
        rw [Bool.eq_false_iff]
        intro hh
        have heq : a = card :=
          mem_unique_of_nodup_ids hnodup ha hmem (by simpa using hh)
        rw [heq] at haL
        exact hsrc haL
      have h1 : shiftSrc card.listId card.position a = a :=
        shiftSrc_eq_self_of_ne _ (by rw [haL]; exact fun hh => hsrc hh.symm)
      have h2 : shiftDst targetListId (countListCards s targetListId : Int) a = a :=
        shiftDst_eq_self_of_lt (hlt a ha haL)
      have h3 : updCard card.id targetListId (countListCards s targetListId : Int) a
          = a := updCard_eq_self _ _ hane
      constructor
      · simp [Function.comp, h1, h2, h3]
      · simp [haL, hane]
    · intro hpF
      rw [Function.comp_apply, Function.comp_apply] at hpF
      have hinner_id :
          (shiftDst targetListId (countListCards s targetListId : Int)
            (shiftSrc card.listId card.position a)).id = a.id := by
        rw [shiftDst_id, shiftSrc_id]
      rw [Bool.and_eq_true] at hpF
      obtain ⟨hpF1, hpF2⟩ := hpF
      have hid : (a.id == card.id) = false := by
        rw [Bool.not_eq_eq_eq_not, Bool.not_true] at hpF2
        rw [updCard_id, hinner_id] at hpF2
        exact hpF2
      have hF_eq : updCard card.id targetListId (countListCards s targetListId : Int)
          (shiftDst targetListId (countListCards s targetListId : Int)
            (shiftSrc card.listId card.position a))
          = shiftDst targetListId (countListCards s targetListId : Int)
              (shiftSrc card.listId card.position a) :=
        updCard_eq_self _ _ (by rw [hinner_id]; exact hid)
      rw [hF_eq, shiftDst_listId, shiftSrc_listId] at hpF1
      exact hpF1

/-- Claim C4 witness: moving card "Alpha" from list 10 to list 20 (2 cards)
with requested position 99 resolves to position 2 = count and appends it at
the end of the target list with the existing rows untouched. -/
theorem c4_amended_witness :
    chat_new_position exStateC4b 20 99 = (countListCards exStateC4b 20 : Int) ∧
    setListPos exCardC4b 20 (countListCards exStateC4b 20 : Int)
      ∈ (move_card_core exStateC4b 1 exCardC4b 20 99).cards ∧
    (move_card_core exStateC4b 1 exCardC4b 20 99).cards.filter
        (fun c => c.listId == 20 && !(c.id == exCardC4b.id))
      = exStateC4b.cards.filter (fun c => c.listId == 20) :=
  c4_amended_out_of_bounds_cross_move_appends_at_count exStateC4b 1 exCardC4b 20 99
    (by decide) (by decide) (by decide) (Or.inr (by decide)) (by decide)
